import Mathlib

/-!
# Verification of the netops-mcp request-handling middleware pipeline

Shallow embedding of the middleware core of the netops-mcp server:

* `src/netops_mcp/middleware/rate_limiter.py` — sliding-window rate limiter,
* `src/netops_mcp/middleware/auth.py` — API-key authentication middleware,
* `src/netops_mcp/middleware/metrics.py` — metrics collector and middleware.

Python strings are embedded as Lean `String` with operations carried out on
`String.data` (`List Char`), matching Python's code-point semantics for
`startswith`, slicing and truthiness.  Python floats (timestamps from
`time.time()`) are embedded as `ℚ`, Python `int(...)` as truncation toward
zero, and `hashlib.sha256(...).hexdigest()` as a byte-for-byte SHA-256
implementation over `Nat` words reduced mod `2^32`.
-/

namespace NetopsMcp

/-! ## Embedding of Python primitives -/

/-- Truncation of a 64-bit-free Nat to 32 bits, as `% 2**32`. -/
def w32 (n : Nat) : Nat := n % 4294967296

/-- 32-bit right rotation (inputs below `2^32`). -/
def rotr (x n : Nat) : Nat := w32 ((x >>> n) ||| (x <<< (32 - n)))

/-- Python `int(q)` for a float/rational: truncation toward zero. -/
def pyInt (q : ℚ) : ℤ := if 0 ≤ q then ⌊q⌋ else ⌈q⌉

/-- Python `min(...)` over a list of floats (callers guarantee nonemptiness;
the `[]` default is never reached on the modelled code paths). -/
def pyMin : List ℚ → ℚ
  | [] => 0
  | [t] => t
  | t :: ts => min t (pyMin ts)

/-- Python `s.startswith(pre)`: code-point prefix test. -/
def pyStartswith (s pre : String) : Bool := pre.data.isPrefixOf s.data

/-- Python `s[n:]`: drop the first `n` code points. -/
def pyDropStr (s : String) (n : Nat) : String := ⟨s.data.drop n⟩

/-- Python `s[:n]`: take the first `n` code points. -/
def pyTakeStr (s : String) (n : Nat) : String := ⟨s.data.take n⟩

/-- Python truthiness of an `Optional[str]`: `None` and `""` are falsy. -/
def optTruthy : Option String → Bool
  | none => false
  | some s => s != ""

/-- `headers.get(name)`: first binding of `name` in the header list. -/
def headersGet (headers : List (String × String)) (name : String) : Option String :=
  (headers.find? (fun p => p.1 = name)).map Prod.snd

/-- `headers.get(name, default)`. -/
def headersGetD (headers : List (String × String)) (name default : String) : String :=
  (headersGet headers name).getD default

/-! ## SHA-256 (`hashlib.sha256(key.encode()).hexdigest()`) -/

/-- The 64 SHA-256 round constants of FIPS 180-4 (decimal rendering of the
usual hex table `0x428a2f98, 0x71374491, ...`). -/
def K256 : List Nat :=
  [1116352408, 1899447441, 3049323471, 3921009573, 961987163, 1508970993,
   2453635748, 2870763221, 3624381080, 310598401, 607225278, 1426881987,
   1925078388, 2162078206, 2614888103, 3248222580, 3835390401, 4022224774,
   264347078, 604807628, 770255983, 1249150122, 1555081692, 1996064986,
   2554220882, 2821834349, 2952996808, 3210313671, 3336571891, 3584528711,
   113926993, 338241895, 666307205, 773529912, 1294757372, 1396182291,
   1695183700, 1986661051, 2177026350, 2456956037, 2730485921, 2820302411,
   3259730800, 3345764771, 3516065817, 3600352804, 4094571909, 275423344,
   430227734, 506948616, 659060556, 883997877, 958139571, 1322822218,
   1537002063, 1747873779, 1955562222, 2024104815, 2227730452, 2361852424,
   2428436474, 2756734187, 3204031479, 3329325298]

/-- The SHA-256 initial hash state of FIPS 180-4 (decimal rendering of
`0x6a09e667, 0xbb67ae85, ...`). -/
def H256 : List Nat :=
  [1779033703, 3144134277, 1013904242, 2773480762,
   1359893119, 2600822924, 528734635, 1541459225]

def smallSigma0 (x : Nat) : Nat := (rotr x 7) ^^^ (rotr x 18) ^^^ (x >>> 3)

def smallSigma1 (x : Nat) : Nat := (rotr x 17) ^^^ (rotr x 19) ^^^ (x >>> 10)

def bigSigma0 (x : Nat) : Nat := (rotr x 2) ^^^ (rotr x 13) ^^^ (rotr x 22)

def bigSigma1 (x : Nat) : Nat := (rotr x 6) ^^^ (rotr x 11) ^^^ (rotr x 25)

def chFn (x y z : Nat) : Nat := (x &&& y) ^^^ ((0xffffffff ^^^ x) &&& z)

def majFn (x y z : Nat) : Nat := (x &&& y) ^^^ (x &&& z) ^^^ (y &&& z)

/-- Big-endian byte encoding of `n` into `k` bytes. -/
def toBytesBE : Nat → Nat → List Nat
  | 0, _ => []
  | k + 1, n => toBytesBE k (n >>> 8) ++ [n % 256]

/-- SHA-256 padding: `0x80`, zero fill to 56 mod 64, then the 64-bit
big-endian bit length. -/
def padMessage (msg : List Nat) : List Nat :=
  let len := msg.length
  let padZeros := (55 + 64 - len % 64) % 64
  msg ++ [0x80] ++ List.replicate padZeros 0 ++ toBytesBE 8 (8 * len)

/-- Parse a byte list into big-endian 32-bit words. -/
def bytesToWords : List Nat → List Nat
  | b0 :: b1 :: b2 :: b3 :: rest =>
      ((((b0 <<< 8) ||| b1) <<< 8 ||| b2) <<< 8 ||| b3) :: bytesToWords rest
  | _ => []

/-- Extend the 16-word message schedule by `k` further words. -/
def extendW (w : List Nat) : Nat → List Nat
  | 0 => w
  | k + 1 =>
      let t := w.length
      let nw := w32 (smallSigma1 (w.getD (t - 2) 0) + w.getD (t - 7) 0 +
                     smallSigma0 (w.getD (t - 15) 0) + w.getD (t - 16) 0)
      extendW (w ++ [nw]) k

/-- One round of the SHA-256 compression function on the register list
`[a, b, c, d, e, f, g, h]`. -/
def compressStep (s : List Nat) (kt wt : Nat) : List Nat :=
  match s with
  | [a, b, c, d, e, f, g, h] =>
      let t1 := w32 (h + bigSigma1 e + chFn e f g + kt + wt)
      let t2 := w32 (bigSigma0 a + majFn a b c)
      [w32 (t1 + t2), a, b, c, w32 (d + t1), e, f, g]
  | other => other

/-- Process one 64-byte block into the running hash state. -/
def processBlock (h : List Nat) (block : List Nat) : List Nat :=
  let ws := extendW (bytesToWords block) 48
  let s := (K256.zip ws).foldl (fun st p => compressStep st p.1 p.2) h
  (h.zip s).map (fun p => w32 (p.1 + p.2))

/-- Process `k` consecutive 64-byte blocks. -/
def processBlocks (h : List Nat) (bytes : List Nat) : Nat → List Nat
  | 0 => h
  | k + 1 => processBlocks (processBlock h (bytes.take 64)) (bytes.drop 64) k

def hexDigit (n : Nat) : Char := if n < 10 then Char.ofNat (48 + n) else Char.ofNat (87 + n)

/-- Lowercase hex rendering of one 32-bit word. -/
def wordToHex (n : Nat) : List Char :=
  [hexDigit ((n >>> 28) % 16), hexDigit ((n >>> 24) % 16), hexDigit ((n >>> 20) % 16),
   hexDigit ((n >>> 16) % 16), hexDigit ((n >>> 12) % 16), hexDigit ((n >>> 8) % 16),
   hexDigit ((n >>> 4) % 16), hexDigit (n % 16)]

/-- UTF-8 encoding of one code point, as Python `str.encode()` produces. -/
def utf8EncodeChar (c : Char) : List Nat :=
  let n := c.toNat
  if n < 0x80 then [n]
  else if n < 0x800 then [0xc0 ||| (n >>> 6), 0x80 ||| (n &&& 0x3f)]
  else if n < 0x10000 then
    [0xe0 ||| (n >>> 12), 0x80 ||| ((n >>> 6) &&& 0x3f), 0x80 ||| (n &&& 0x3f)]
  else
    [0xf0 ||| (n >>> 18), 0x80 ||| ((n >>> 12) &&& 0x3f),
     0x80 ||| ((n >>> 6) &&& 0x3f), 0x80 ||| (n &&& 0x3f)]

/-- Python `s.encode()`: UTF-8 bytes of a string. -/
def strBytes (s : String) : List Nat := (s.data.map utf8EncodeChar).flatten

/-- `hashlib.sha256(s.encode()).hexdigest()`: lowercase 64-hex-char digest. -/
def sha256hex (s : String) : String :=
  let msg := strBytes s
  let padded := padMessage msg
  let hs := processBlocks H256 padded (padded.length / 64)
  ⟨(hs.map wordToHex).flatten⟩

/-! ## `rate_limiter.py`: class `RateLimiter` -/

/-- State of a `RateLimiter` instance.  `requests` embeds the
`defaultdict(list)` mapping client ids to recorded timestamps. -/
structure RateLimiter where
  requests_per_window : ℕ
  window_seconds : ℕ
  requests : String → List ℚ

/-- `RateLimiter.__init__(requests_per_window, window_seconds)`. -/
def RateLimiter.init (requests_per_window window_seconds : ℕ) : RateLimiter :=
  { requests_per_window, window_seconds, requests := fun _ => [] }

/-- `RateLimiter._cleanup_old_requests`: keep only the timestamps of
`client_id` strictly newer than `current_time - window_seconds`. -/
def RateLimiter.cleanup_old_requests (rl : RateLimiter) (client_id : String)
    (current_time : ℚ) : RateLimiter :=
  let cutoff_time := current_time - rl.window_seconds
  { rl with requests := fun i =>
      if i = client_id then
        (rl.requests client_id).filter (fun req_time => decide (cutoff_time < req_time))
      else rl.requests i }

/-- `RateLimiter.is_allowed(client_id)` at time `current_time`: returns the
`(allowed, remaining, reset_time)` triple and the successor limiter state. -/
def RateLimiter.is_allowed (rl : RateLimiter) (client_id : String)
    (current_time : ℚ) : (Bool × ℤ × ℤ) × RateLimiter :=
  let rl1 := rl.cleanup_old_requests client_id current_time
  let request_count := (rl1.requests client_id).length
  if rl1.requests_per_window ≤ request_count then
    let oldest_request := pyMin (rl1.requests client_id)
    let reset_time := pyInt (oldest_request + rl1.window_seconds - current_time)
    ((false, 0, reset_time), rl1)
  else
    ((true, (rl1.requests_per_window : ℤ) - request_count - 1, (rl1.window_seconds : ℤ)),
     { rl1 with requests := fun i =>
         if i = client_id then rl1.requests client_id ++ [current_time]
         else rl1.requests i })

/-- A sequence of `is_allowed` evaluations for the same client at the given
times, threading the limiter state. -/
def RateLimiter.runRequests (rl : RateLimiter) (client_id : String) : List ℚ → RateLimiter
  | [] => rl
  | t :: ts => ((rl.is_allowed client_id t).2).runRequests client_id ts

/-! ## Requests and responses

A Starlette request, restricted to what the middleware reads: method, path,
headers, the peer address (`request.client.host`, absent when no client), and
the mutable `request.state` bag used for the `authenticated` /
`api_key_hash` annotations (absent attributes are `none`). -/

structure Request where
  method : String
  path : String
  headers : List (String × String)
  client_host : Option String
  state_authenticated : Option Bool := none
  state_api_key_hash : Option String := none
deriving DecidableEq

/-- A downstream response, restricted to what the middleware reads. -/
structure Response where
  status_code : ℕ
  headers : List (String × String)
deriving DecidableEq

/-! ## `auth.py`: class `AuthenticationMiddleware` -/

/-- Configuration state built by `AuthenticationMiddleware.__init__`. -/
structure AuthMiddleware where
  api_keys : List String
  require_auth : Bool
  exempt_paths : List String
  hashed_keys : List String

/-- `AuthenticationMiddleware._hash_key` (also module-level `hash_api_key`):
SHA-256 hex digest of the key. -/
def hash_key (key : String) : String := sha256hex key

/-- `AuthenticationMiddleware.__init__(app, api_keys, require_auth,
exempt_paths)`: stores the keys, the flag, the exemption set (defaulting to
`{"/health", "/metrics"}`), and the set of hashed keys. -/
def AuthMiddleware.init (api_keys : List String) (require_auth : Bool)
    (exempt_paths : Option (List String)) : AuthMiddleware :=
  { api_keys
    require_auth
    exempt_paths := exempt_paths.getD ["/health", "/metrics"]
    hashed_keys := api_keys.map hash_key }

/-- `AuthenticationMiddleware._extract_api_key`: `Authorization: Bearer ...`
first, then `X-API-Key`, then `API-Key` (the latter two skipped when falsy). -/
def extract_api_key (headers : List (String × String)) : Option String :=
  let auth_header := headersGetD headers "Authorization" ""
  if pyStartswith auth_header "Bearer " then some (pyDropStr auth_header 7)
  else
    let api_key := headersGet headers "X-API-Key"
    if optTruthy api_key then api_key
    else
      let api_key2 := headersGet headers "API-Key"
      if optTruthy api_key2 then api_key2
      else none

/-- `AuthenticationMiddleware._validate_api_key`: accept when the presented
key occurs among the stored keys, or when its SHA-256 digest occurs among the
stored digests. -/
def validate_api_key (mw : AuthMiddleware) (api_key : String) : Bool :=
  if api_key ∈ mw.api_keys then true
  else hash_key api_key ∈ mw.hashed_keys

/-- Outcome of `AuthenticationMiddleware.dispatch`: either the request is
handed to `call_next` (with any state annotations applied), or a
`JSONResponse` rejection with the given status, body fields and extra
response headers is returned without invoking the downstream handler. -/
inductive AuthOutcome where
  | passThrough (req : Request)
  | reject (status : ℕ) (body : List (String × String)) (headers : List (String × String))
deriving DecidableEq

/-- Body of the 401 missing-credential `JSONResponse`. -/
def body401 : List (String × String) :=
  [("error", "Authentication required"),
   ("message", "Please provide an API key using Authorization header (Bearer token) or X-API-Key header")]

/-- Response headers of the 401 missing-credential `JSONResponse`. -/
def headers401 : List (String × String) :=
  [("WWW-Authenticate", "Bearer realm=\"NetOpsMCP\"")]

/-- Body of the 403 invalid-credential `JSONResponse`. -/
def body403 : List (String × String) :=
  [("error", "Invalid API key"), ("message", "The provided API key is not valid")]

/-- `AuthenticationMiddleware.dispatch`. -/
def auth_dispatch (mw : AuthMiddleware) (req : Request) : AuthOutcome :=
  if req.path ∈ mw.exempt_paths then .passThrough req
  else if mw.require_auth = false then .passThrough req
  else
    let api_key := extract_api_key req.headers
    if optTruthy api_key = false then .reject 401 body401 headers401
    else
      let k := api_key.getD ""
      if validate_api_key mw k = false then .reject 403 body403 []
      else
        .passThrough { req with
          state_authenticated := some true
          state_api_key_hash := some (pyTakeStr (hash_key k) 8) }

/-! ## `metrics.py`: class `MetricsCollector` -/

/-- The registers of a `MetricsCollector`.  The `defaultdict` maps are
embedded as total functions with zero/empty defaults. -/
structure MetricsCollector where
  http_requests_total : String × String × ℕ → ℕ
  http_request_duration_seconds : String × String × ℕ → List ℚ
  http_requests_in_progress : ℤ
  auth_attempts_total : ℕ
  auth_failures_total : ℕ
  rate_limit_hits_total : ℕ
  tool_executions_total : String → ℕ
  tool_execution_duration : String → List ℚ
  tool_failures_total : String → ℕ

/-- `MetricsCollector.__init__`. -/
def MetricsCollector.init : MetricsCollector :=
  { http_requests_total := fun _ => 0
    http_request_duration_seconds := fun _ => []
    http_requests_in_progress := 0
    auth_attempts_total := 0
    auth_failures_total := 0
    rate_limit_hits_total := 0
    tool_executions_total := fun _ => 0
    tool_execution_duration := fun _ => []
    tool_failures_total := fun _ => 0 }

/-- `MetricsCollector.record_http_request(method, path, status_code,
duration)`. -/
def MetricsCollector.record_http_request (c : MetricsCollector)
    (method path : String) (status_code : ℕ) (duration : ℚ) : MetricsCollector :=
  { c with
    http_requests_total := fun t =>
      if t = (method, path, status_code) then c.http_requests_total t + 1
      else c.http_requests_total t
    http_request_duration_seconds := fun t =>
      if t = (method, path, status_code) then
        c.http_request_duration_seconds t ++ [duration]
      else c.http_request_duration_seconds t }

/-- `MetricsCollector.inc_requests_in_progress`. -/
def MetricsCollector.inc_requests_in_progress (c : MetricsCollector) : MetricsCollector :=
  { c with http_requests_in_progress := c.http_requests_in_progress + 1 }

/-- `MetricsCollector.dec_requests_in_progress`: `max(0, n - 1)`. -/
def MetricsCollector.dec_requests_in_progress (c : MetricsCollector) : MetricsCollector :=
  { c with http_requests_in_progress := max 0 (c.http_requests_in_progress - 1) }

/-- `MetricsCollector.record_auth_attempt(success)`. -/
def MetricsCollector.record_auth_attempt (c : MetricsCollector) (success : Bool) :
    MetricsCollector :=
  { c with
    auth_attempts_total := c.auth_attempts_total + 1
    auth_failures_total := if success then c.auth_failures_total else c.auth_failures_total + 1 }

/-- `MetricsCollector.record_rate_limit_hit`. -/
def MetricsCollector.record_rate_limit_hit (c : MetricsCollector) : MetricsCollector :=
  { c with rate_limit_hits_total := c.rate_limit_hits_total + 1 }

/-- `AuthenticationMiddleware.dispatch` paired with the metrics collector in
scope at the server: the source of `dispatch` contains no reference to any
`MetricsCollector` (and `record_auth_attempt` has no caller in the
repository), so the collector component passes through unchanged. -/
def auth_dispatch_metrics (mw : AuthMiddleware) (c : MetricsCollector)
    (req : Request) : AuthOutcome × MetricsCollector :=
  (auth_dispatch mw req, c)

/-! ## `metrics.py`: class `MetricsMiddleware` -/

/-- `MetricsMiddleware.dispatch`.  `call_next` is the opaque downstream
handler, which either returns a response or raises (modelled by `Except`
with a `String` payload); `start_time` and `end_time` are the two
`time.time()` readings.  Returns the propagated result and the collector
after bookkeeping. -/
def metrics_dispatch (c : MetricsCollector) (req : Request)
    (call_next : Request → Except String Response) (start_time end_time : ℚ) :
    Except String Response × MetricsCollector :=
  if req.path = "/metrics" then (call_next req, c)
  else
    let c1 := c.inc_requests_in_progress
    match call_next req with
    | .ok response =>
        let duration := end_time - start_time
        let c2 := c1.record_http_request req.method req.path response.status_code duration
        (.ok response, c2.dec_requests_in_progress)
    | .error e => (.error e, c1.dec_requests_in_progress)

/-! ## `rate_limiter.py`: class `RateLimitMiddleware` -/

/-- Configuration state built by `RateLimitMiddleware.__init__`. -/
structure RateLimitMiddleware where
  rate_limiter : RateLimiter
  exempt_paths : List String

/-- `RateLimitMiddleware.__init__(app, requests_per_window, window_seconds,
exempt_paths)`. -/
def RateLimitMiddleware.init (requests_per_window window_seconds : ℕ)
    (exempt_paths : Option (List String)) : RateLimitMiddleware :=
  { rate_limiter := RateLimiter.init requests_per_window window_seconds
    exempt_paths := exempt_paths.getD ["/health", "/metrics"] }

/-- `RateLimitMiddleware._get_client_identifier`. -/
def get_client_identifier (req : Request) : String :=
  match req.state_api_key_hash with
  | some h => "key:" ++ h
  | none => "ip:" ++ req.client_host.getD "unknown"

/-- Outcome of `RateLimitMiddleware.dispatch`: the request is either handed
to `call_next` (and the listed rate-limit headers are added to the response
afterwards), or rejected with a 429 `JSONResponse`. -/
inductive RateLimitOutcome where
  | proceed (added_headers : List (String × String))
  | reject (status : ℕ) (retry_after : ℤ) (headers : List (String × String))
deriving DecidableEq

/-- `RateLimitMiddleware.dispatch` at time `now` (`int(time.time())` in the
header values is embedded as `pyInt now`).  Returns the outcome and the
successor limiter state. -/
def ratelimit_dispatch (mw : RateLimitMiddleware) (req : Request) (now : ℚ) :
    RateLimitOutcome × RateLimiter :=
  if req.path ∈ mw.exempt_paths then (.proceed [], mw.rate_limiter)
  else
    let client_id := get_client_identifier req
    let r := mw.rate_limiter.is_allowed client_id now
    let allowed := r.1.1
    let remaining := r.1.2.1
    let reset_time := r.1.2.2
    if allowed = false then
      (.reject 429 reset_time
        [("X-RateLimit-Limit", toString mw.rate_limiter.requests_per_window),
         ("X-RateLimit-Remaining", "0"),
         ("X-RateLimit-Reset", toString (pyInt now + reset_time)),
         ("Retry-After", toString reset_time)], r.2)
    else
      (.proceed
        [("X-RateLimit-Limit", toString mw.rate_limiter.requests_per_window),
         ("X-RateLimit-Remaining", toString remaining),
         ("X-RateLimit-Reset", toString (pyInt now + mw.rate_limiter.window_seconds))], r.2)

/-! ## Helper lemmas -/

theorem pyInt_eq_floor {q : ℚ} (h : 0 ≤ q) : pyInt q = ⌊q⌋ := by
  simp [pyInt, h]

theorem pyMin_gt {c : ℚ} : ∀ {l : List ℚ}, l ≠ [] → (∀ x ∈ l, c < x) → c < pyMin l
  | [], h, _ => absurd rfl h
  | [t], _, h2 => by simpa [pyMin] using h2 t (by simp)
  | t :: t2 :: ts, _, h2 => by
      have ih := pyMin_gt (l := t2 :: ts) (by simp) (fun x hx => h2 x (by simp [hx]))
      simp only [pyMin, lt_min_iff]
      exact ⟨h2 t (by simp), ih⟩

theorem cleanup_rpw (rl : RateLimiter) (client_id : String) (t : ℚ) :
    (rl.cleanup_old_requests client_id t).requests_per_window = rl.requests_per_window := rfl

theorem cleanup_ws (rl : RateLimiter) (client_id : String) (t : ℚ) :
    (rl.cleanup_old_requests client_id t).window_seconds = rl.window_seconds := rfl

theorem cleanup_requests_self (rl : RateLimiter) (client_id : String) (t : ℚ) :
    (rl.cleanup_old_requests client_id t).requests client_id =
      (rl.requests client_id).filter
        (fun x => decide (t - (rl.window_seconds : ℚ) < x)) := by
  simp [RateLimiter.cleanup_old_requests]

theorem mem_cleanup_gt (rl : RateLimiter) (client_id : String) (t : ℚ) :
    ∀ x ∈ (rl.cleanup_old_requests client_id t).requests client_id,
      t - (rl.window_seconds : ℚ) < x := by
  intro x hx
  rw [cleanup_requests_self] at hx
  simpa using (List.mem_filter.mp hx).2

/-! ## C1: the sliding-window admission rule -/

/-- Claim C1: for capacity `requests_per_window ≥ 1` and window
`window_seconds ≥ 1`, `is_allowed` first purges the client's timestamps at
the `now - window_seconds` cutoff; with `n` the remaining count, if
`n ≥ requests_per_window` it returns
`(false, 0, floor(oldest + window_seconds - now))` and appends nothing,
otherwise it appends `now` and returns
`(true, requests_per_window - n - 1, window_seconds)`. -/
theorem rateLimiter_is_allowed_spec (rl : RateLimiter) (client_id : String) (now : ℚ)
    (hrpw : 1 ≤ rl.requests_per_window) (hws : 1 ≤ rl.window_seconds) :
    (rl.requests_per_window ≤
        ((rl.cleanup_old_requests client_id now).requests client_id).length →
      rl.is_allowed client_id now =
        ((false, 0,
            ⌊pyMin ((rl.cleanup_old_requests client_id now).requests client_id) +
              (rl.window_seconds : ℚ) - now⌋),
         rl.cleanup_old_requests client_id now))
    ∧ (((rl.cleanup_old_requests client_id now).requests client_id).length <
        rl.requests_per_window →
      rl.is_allowed client_id now =
        ((true,
            (rl.requests_per_window : ℤ) -
              ((rl.cleanup_old_requests client_id now).requests client_id).length - 1,
            (rl.window_seconds : ℤ)),
         { rl.cleanup_old_requests client_id now with requests := fun i =>
             if i = client_id then
               ((rl.cleanup_old_requests client_id now).requests client_id) ++ [now]
             else (rl.cleanup_old_requests client_id now).requests i })) := by
  constructor
  · intro hge
    have hne : (rl.cleanup_old_requests client_id now).requests client_id ≠ [] := by
      intro h0
      rw [h0] at hge
      simp at hge
      omega
    have hmin : now - (rl.window_seconds : ℚ) <
        pyMin ((rl.cleanup_old_requests client_id now).requests client_id) :=
      pyMin_gt hne (mem_cleanup_gt rl client_id now)
    have hpos : 0 ≤ pyMin ((rl.cleanup_old_requests client_id now).requests client_id) +
        (rl.window_seconds : ℚ) - now := by linarith
    unfold RateLimiter.is_allowed
    simp only [cleanup_rpw, cleanup_ws]
    rw [if_pos hge, pyInt_eq_floor hpos]
  · intro hlt
    unfold RateLimiter.is_allowed
    simp only [cleanup_rpw, cleanup_ws]
    rw [if_neg (not_le.mpr hlt)]

/-- Witness for C1 (admit branch) at a concrete limiter. -/
theorem rateLimiter_is_allowed_spec_witness :
    (RateLimiter.init 2 60).is_allowed "ip:1.2.3.4" 5 =
      ((true,
          ((RateLimiter.init 2 60).requests_per_window : ℤ) -
            (((RateLimiter.init 2 60).cleanup_old_requests "ip:1.2.3.4" 5).requests
              "ip:1.2.3.4").length - 1,
          ((RateLimiter.init 2 60).window_seconds : ℤ)),
       { (RateLimiter.init 2 60).cleanup_old_requests "ip:1.2.3.4" 5 with requests := fun i =>
           if i = "ip:1.2.3.4" then
             (((RateLimiter.init 2 60).cleanup_old_requests "ip:1.2.3.4" 5).requests
               "ip:1.2.3.4") ++ [5]
           else ((RateLimiter.init 2 60).cleanup_old_requests "ip:1.2.3.4" 5).requests i }) :=
  (rateLimiter_is_allowed_spec (RateLimiter.init 2 60) "ip:1.2.3.4" 5
    (by decide) (by decide)).2 (by decide)

/-! ## C9: bucket isolation -/

theorem is_allowed_snd_rpw (rl : RateLimiter) (cid : String) (t : ℚ) :
    ((rl.is_allowed cid t).2).requests_per_window = rl.requests_per_window := by
  simp only [RateLimiter.is_allowed]
  split <;> rfl

theorem is_allowed_snd_ws (rl : RateLimiter) (cid : String) (t : ℚ) :
    ((rl.is_allowed cid t).2).window_seconds = rl.window_seconds := by
  simp only [RateLimiter.is_allowed]
  split <;> rfl

theorem is_allowed_snd_requests_other (rl : RateLimiter) (cid : String) (t : ℚ)
    (B : String) (h : B ≠ cid) :
    ((rl.is_allowed cid t).2).requests B = rl.requests B := by
  simp only [RateLimiter.is_allowed]
  split <;> simp [RateLimiter.cleanup_old_requests, h]

/-- The admit/reject triple of `is_allowed`, expressed purely from the
client's own timestamp list and the limiter parameters. -/
theorem is_allowed_fst_formula (rl : RateLimiter) (cid : String) (t : ℚ) :
    (rl.is_allowed cid t).1 =
      (if rl.requests_per_window ≤
          ((rl.requests cid).filter (fun x => decide (t - (rl.window_seconds : ℚ) < x))).length then
        (false, 0,
          pyInt (pyMin ((rl.requests cid).filter
              (fun x => decide (t - (rl.window_seconds : ℚ) < x))) +
            (rl.window_seconds : ℚ) - t))
      else
        (true,
          (rl.requests_per_window : ℤ) -
            ((rl.requests cid).filter
              (fun x => decide (t - (rl.window_seconds : ℚ) < x))).length - 1,
          (rl.window_seconds : ℤ))) := by
  unfold RateLimiter.is_allowed
  simp only [cleanup_rpw, cleanup_ws, cleanup_requests_self]
  split <;> rfl

/-- The client's own timestamp list after `is_allowed`, expressed purely
from its previous list and the limiter parameters. -/
theorem is_allowed_snd_requests_self (rl : RateLimiter) (cid : String) (t : ℚ) :
    ((rl.is_allowed cid t).2).requests cid =
      (if rl.requests_per_window ≤
          ((rl.requests cid).filter (fun x => decide (t - (rl.window_seconds : ℚ) < x))).length then
        (rl.requests cid).filter (fun x => decide (t - (rl.window_seconds : ℚ) < x))
      else
        (rl.requests cid).filter (fun x => decide (t - (rl.window_seconds : ℚ) < x)) ++ [t]) := by
  unfold RateLimiter.is_allowed
  simp only [cleanup_rpw, cleanup_ws, cleanup_requests_self]
  split
  · rw [cleanup_requests_self]
  · simp [cleanup_requests_self]

theorem runRequests_frame (A B : String) (h : A ≠ B) (ts : List ℚ) :
    ∀ rl : RateLimiter,
      (rl.runRequests A ts).requests B = rl.requests B
      ∧ (rl.runRequests A ts).requests_per_window = rl.requests_per_window
      ∧ (rl.runRequests A ts).window_seconds = rl.window_seconds := by
  induction ts with
  | nil => intro rl; exact ⟨rfl, rfl, rfl⟩
  | cons t ts ih =>
      intro rl
      have step := ih ((rl.is_allowed A t).2)
      refine ⟨?_, ?_, ?_⟩
      · rw [RateLimiter.runRequests, step.1,
          is_allowed_snd_requests_other rl A t B (Ne.symm h)]
      · rw [RateLimiter.runRequests, step.2.1, is_allowed_snd_rpw]
      · rw [RateLimiter.runRequests, step.2.2, is_allowed_snd_ws]

/-- Claim C9: requests attributed to `A` never read or modify `B`'s bucket:
after any number of `A`-evaluations, `B`'s recorded timestamp list is
unchanged, and a `B`-evaluation produces the same admit/reject outcome,
remaining quota and reset value, and the same recorded window for `B`, as
it would have before `A`'s requests. -/
theorem rateLimiter_bucket_isolation (rl : RateLimiter) (A B : String) (ts : List ℚ)
    (now : ℚ) (h : A ≠ B) :
    (rl.runRequests A ts).requests B = rl.requests B
    ∧ ((rl.runRequests A ts).is_allowed B now).1 = (rl.is_allowed B now).1
    ∧ (((rl.runRequests A ts).is_allowed B now).2).requests B =
        ((rl.is_allowed B now).2).requests B := by
  obtain ⟨hreq, hrpw, hws⟩ := runRequests_frame A B h ts rl
  refine ⟨hreq, ?_, ?_⟩
  · rw [is_allowed_fst_formula, is_allowed_fst_formula, hreq, hrpw, hws]
  · rw [is_allowed_snd_requests_self, is_allowed_snd_requests_self, hreq, hrpw, hws]

/-- Witness for C9 with two concrete identities and a batch of requests. -/
theorem rateLimiter_bucket_isolation_witness :
    ((RateLimiter.init 2 60).runRequests "ip:1.1.1.1" [1, 2, 3]).requests "ip:2.2.2.2" =
        (RateLimiter.init 2 60).requests "ip:2.2.2.2"
    ∧ (((RateLimiter.init 2 60).runRequests "ip:1.1.1.1" [1, 2, 3]).is_allowed
        "ip:2.2.2.2" 4).1 = ((RateLimiter.init 2 60).is_allowed "ip:2.2.2.2" 4).1
    ∧ ((((RateLimiter.init 2 60).runRequests "ip:1.1.1.1" [1, 2, 3]).is_allowed
        "ip:2.2.2.2" 4).2).requests "ip:2.2.2.2" =
        (((RateLimiter.init 2 60).is_allowed "ip:2.2.2.2" 4).2).requests "ip:2.2.2.2" :=
  rateLimiter_bucket_isolation (RateLimiter.init 2 60) "ip:1.1.1.1" "ip:2.2.2.2"
    [1, 2, 3] 4 (by decide)

/-! ## Authentication helper lemmas -/

theorem isPrefixOf_append_self : ∀ (l1 l2 : List Char), l1.isPrefixOf (l1 ++ l2) = true
  | [], _ => by simp
  | a :: as, l2 => by simp [List.isPrefixOf, isPrefixOf_append_self as l2]

theorem pyStartswith_append (pre t : String) : pyStartswith (pre ++ t) pre = true := by
  unfold pyStartswith
  rw [String.data_append]
  exact isPrefixOf_append_self _ _

theorem pyDropStr_bearer (t : String) : pyDropStr ("Bearer " ++ t) 7 = t := by
  unfold pyDropStr
  rw [String.data_append, List.drop_left' (by decide)]

theorem auth_dispatch_401 (mw : AuthMiddleware) (req : Request)
    (hpath : req.path ∉ mw.exempt_paths) (hra : mw.require_auth = true)
    (hfalsy : optTruthy (extract_api_key req.headers) = false) :
    auth_dispatch mw req = .reject 401 body401 headers401 := by
  unfold auth_dispatch
  rw [if_neg hpath, hra]
  simp [hfalsy]

theorem auth_dispatch_403 (mw : AuthMiddleware) (req : Request) (k : String)
    (hpath : req.path ∉ mw.exempt_paths) (hra : mw.require_auth = true)
    (hex : extract_api_key req.headers = some k) (hk : k ≠ "")
    (hval : validate_api_key mw k = false) :
    auth_dispatch mw req = .reject 403 body403 [] := by
  unfold auth_dispatch
  rw [if_neg hpath, hra, hex]
  simp [optTruthy, hk, hval]

theorem auth_dispatch_pass (mw : AuthMiddleware) (req : Request) (k : String)
    (hpath : req.path ∉ mw.exempt_paths) (hra : mw.require_auth = true)
    (hex : extract_api_key req.headers = some k) (hk : k ≠ "")
    (hval : validate_api_key mw k = true) :
    auth_dispatch mw req = .passThrough { req with
      state_authenticated := some true
      state_api_key_hash := some (pyTakeStr (hash_key k) 8) } := by
  unfold auth_dispatch
  rw [if_neg hpath, hra, hex]
  simp [optTruthy, hk, hval]

/-! ## C3: exemption bypasses authentication and rate limiting -/

/-- Claim C3: for a request whose path lies in both exemption sets, the
authentication middleware and the rate-limit middleware pass the request to
the next handler unmodified — never a 401/403/429 rejection — and the rate
limiter's recorded state is untouched, for any headers (any credential) and
any prior limiter state. -/
theorem exempt_paths_passthrough (mw : AuthMiddleware) (rlm : RateLimitMiddleware)
    (req : Request) (now : ℚ)
    (h1 : req.path ∈ mw.exempt_paths) (h2 : req.path ∈ rlm.exempt_paths) :
    auth_dispatch mw req = .passThrough req
    ∧ ratelimit_dispatch rlm req now = (.proceed [], rlm.rate_limiter) := by
  constructor
  · unfold auth_dispatch
    rw [if_pos h1]
  · unfold ratelimit_dispatch
    rw [if_pos h2]

/-- A `/health` request carrying an invalid credential header. -/
def reqHealth : Request :=
  { method := "GET", path := "/health",
    headers := [("X-API-Key", "wrong")], client_host := some "1.2.3.4" }

/-- A limiter whose (single shared) bucket is already over capacity. -/
def rlSaturated : RateLimiter :=
  { requests_per_window := 1, window_seconds := 60, requests := fun _ => [1, 2, 3] }

/-- A rate-limit middleware with the default exemptions over `rlSaturated`. -/
def rlmSaturated : RateLimitMiddleware :=
  { rate_limiter := rlSaturated, exempt_paths := ["/health", "/metrics"] }

/-- Witness for C3: the default-exempt `/health` path with an invalid
credential header and a saturated rate-limit bucket. -/
theorem exempt_paths_passthrough_witness :
    auth_dispatch (AuthMiddleware.init ["secret"] true none) reqHealth =
      .passThrough reqHealth
    ∧ ratelimit_dispatch rlmSaturated reqHealth 4 = (.proceed [], rlSaturated) :=
  exempt_paths_passthrough (AuthMiddleware.init ["secret"] true none)
    rlmSaturated reqHealth 4 (by decide) (by decide)

/-! ## C4: 401 and 403 rejection behaviour -/

/-- Claim C4: on a non-exempt request with authentication required, a
falsy extraction result (no usable credential in the headers) yields the
401 `JSONResponse` with an error/message body and a `WWW-Authenticate`
header, and an extracted nonempty credential failing validation yields the
403 `JSONResponse` with an error/message body; both outcomes are
rejections, so the downstream handler is not invoked and no state
annotation is applied. -/
theorem auth_reject_spec (mw : AuthMiddleware) (req : Request)
    (hpath : req.path ∉ mw.exempt_paths) (hra : mw.require_auth = true) :
    (optTruthy (extract_api_key req.headers) = false →
      auth_dispatch mw req = .reject 401 body401 headers401)
    ∧ (∀ k, extract_api_key req.headers = some k → k ≠ "" →
        validate_api_key mw k = false →
        auth_dispatch mw req = .reject 403 body403 [])
    ∧ body401.map Prod.fst = ["error", "message"]
    ∧ body403.map Prod.fst = ["error", "message"]
    ∧ headers401.map Prod.fst = ["WWW-Authenticate"] := by
  refine ⟨fun hfalsy => auth_dispatch_401 mw req hpath hra hfalsy,
    fun k hex hk hval => auth_dispatch_403 mw req k hpath hra hex hk hval,
    by decide, by decide, by decide⟩

/-- Witness for C4: a credential-free request is rejected 401 and a
wrong-credential request is rejected 403, against a concrete store. -/
theorem auth_reject_spec_witness :
    auth_dispatch (AuthMiddleware.init ["secret"] true none)
      { method := "GET", path := "/ping", headers := [], client_host := none } =
      .reject 401 body401 headers401
    ∧ auth_dispatch (AuthMiddleware.init ["secret"] true none)
        { method := "GET", path := "/ping",
          headers := [("X-API-Key", "wrong")], client_host := none } =
      .reject 403 body403 [] :=
  ⟨(auth_reject_spec (AuthMiddleware.init ["secret"] true none)
      { method := "GET", path := "/ping", headers := [], client_host := none }
      (by decide) (by decide)).1 (by decide),
   (auth_reject_spec (AuthMiddleware.init ["secret"] true none)
      { method := "GET", path := "/ping",
        headers := [("X-API-Key", "wrong")], client_host := none }
      (by decide) (by decide)).2.1 "wrong" (by decide) (by decide) (by decide)⟩

/-! ## C5: Bearer precedence -/

/-- Claim C5: when a request carries both `Authorization: Bearer t1` and
`X-API-Key: t2`, extraction yields `t1`, and on a non-exempt enforced
request the dispatch outcome is decided by validating `t1` alone — a 403
when `t1` fails validation, a pass-through annotated with `t1`'s digest
prefix when it succeeds — irrespective of `t2`.  Extraction tries the
`Bearer `-prefixed `Authorization` header first, so the later `X-API-Key`
and `API-Key` conventions are not consulted. -/
theorem bearer_precedence (t1 t2 : String) (rest : List (String × String))
    (mw : AuthMiddleware) (req : Request)
    (hhdrs : req.headers = ("Authorization", "Bearer " ++ t1) :: ("X-API-Key", t2) :: rest)
    (hpath : req.path ∉ mw.exempt_paths) (hra : mw.require_auth = true)
    (ht1 : t1 ≠ "") :
    extract_api_key req.headers = some t1
    ∧ (validate_api_key mw t1 = false → auth_dispatch mw req = .reject 403 body403 [])
    ∧ (validate_api_key mw t1 = true →
        auth_dispatch mw req = .passThrough { req with
          state_authenticated := some true
          state_api_key_hash := some (pyTakeStr (hash_key t1) 8) }) := by
  have hex : extract_api_key req.headers = some t1 := by
    rw [hhdrs]
    unfold extract_api_key headersGetD headersGet
    simp [List.find?, pyStartswith_append, pyDropStr_bearer]
  exact ⟨hex,
    fun hval => auth_dispatch_403 mw req t1 hpath hra hex ht1 hval,
    fun hval => auth_dispatch_pass mw req t1 hpath hra hex ht1 hval⟩

/-- A request carrying both a Bearer credential and a different
`X-API-Key` credential. -/
def reqBothHeaders : Request :=
  { method := "GET", path := "/ping",
    headers := [("Authorization", "Bearer " ++ "secret"), ("X-API-Key", "other")],
    client_host := none }

/-- Witness for C5: with store `["secret"]`, Bearer value `secret` and
`X-API-Key` value `other`, the Bearer value is extracted and the request
passes validation, annotated with the digest prefix of `secret`. -/
theorem bearer_precedence_witness :
    extract_api_key reqBothHeaders.headers = some "secret"
    ∧ auth_dispatch (AuthMiddleware.init ["secret"] true none) reqBothHeaders =
        .passThrough { reqBothHeaders with
          state_authenticated := some true
          state_api_key_hash := some (pyTakeStr (hash_key "secret") 8) } :=
  ⟨(bearer_precedence "secret" "other" [] (AuthMiddleware.init ["secret"] true none)
      reqBothHeaders rfl (by decide) (by decide) (by decide)).1,
   (bearer_precedence "secret" "other" [] (AuthMiddleware.init ["secret"] true none)
      reqBothHeaders rfl (by decide) (by decide) (by decide)).2.2 (by decide)⟩

/-! ## C10: empty credentials are treated as missing, not invalid -/

/-- Claim C10: a non-exempt enforced request whose `Authorization` header is
exactly `"Bearer "` (empty token), or which has no `Bearer`-prefixed
`Authorization` header and only empty-or-absent `X-API-Key` / `API-Key`
headers, produces a falsy extraction and is rejected with the 401
missing-credential response (including `WWW-Authenticate`), never with the
403 invalid-credential response. -/
theorem empty_credential_401 (mw : AuthMiddleware) (req : Request)
    (hpath : req.path ∉ mw.exempt_paths) (hra : mw.require_auth = true)
    (hcase : headersGet req.headers "Authorization" = some "Bearer "
      ∨ (pyStartswith (headersGetD req.headers "Authorization" "") "Bearer " = false
         ∧ optTruthy (headersGet req.headers "X-API-Key") = false
         ∧ optTruthy (headersGet req.headers "API-Key") = false)) :
    optTruthy (extract_api_key req.headers) = false
    ∧ auth_dispatch mw req = .reject 401 body401 headers401
    ∧ auth_dispatch mw req ≠ .reject 403 body403 [] := by
  have hfalsy : optTruthy (extract_api_key req.headers) = false := by
    rcases hcase with hb | ⟨hnb, hx, ha⟩
    · unfold extract_api_key headersGetD
      rw [hb]
      simp only [Option.getD_some]
      rw [if_pos (by decide)]
      decide
    · simp only [extract_api_key, hnb, hx, ha, Bool.false_eq_true, if_false]
      rfl
  refine ⟨hfalsy, auth_dispatch_401 mw req hpath hra hfalsy, ?_⟩
  rw [auth_dispatch_401 mw req hpath hra hfalsy]
  intro hcontra
  exact absurd (by injection hcontra) (by decide)

/-- A request whose only credential header is an empty Bearer token. -/
def reqEmptyBearer : Request :=
  { method := "GET", path := "/ping",
    headers := [("Authorization", "Bearer "), ("X-API-Key", "ignored")],
    client_host := none }

/-- A request whose credential headers are empty strings. -/
def reqEmptyKeys : Request :=
  { method := "GET", path := "/ping",
    headers := [("X-API-Key", ""), ("API-Key", "")], client_host := none }

/-- Witness for C10: both empty-credential shapes are rejected 401 against
a concrete store. -/
theorem empty_credential_401_witness :
    auth_dispatch (AuthMiddleware.init ["secret"] true none) reqEmptyBearer =
      .reject 401 body401 headers401
    ∧ auth_dispatch (AuthMiddleware.init ["secret"] true none) reqEmptyKeys =
      .reject 401 body401 headers401 :=
  ⟨(empty_credential_401 (AuthMiddleware.init ["secret"] true none) reqEmptyBearer
      (by decide) (by decide) (Or.inl (by decide))).2.1,
   (empty_credential_401 (AuthMiddleware.init ["secret"] true none) reqEmptyKeys
      (by decide) (by decide) (Or.inr (by refine ⟨by decide, by decide, by decide⟩))).2.1⟩

/-! ## C2: digest presentation does not validate (code bug) -/

set_option maxRecDepth 100000 in
/-- Claim C2 (refuted — code bug): with the store built from the plaintext
list `["secret"]`, presenting `"secret"` validates, but presenting its
SHA-256 hex digest does not: `_validate_api_key` hashes the *presented*
credential and compares it against the hashes of the *stored* keys, so the
digest of a stored key is double-hashed and never matches.  The digest
value is pinned to the well-known SHA-256 of `"secret"`. -/
theorem digest_presentation_not_validated :
    hash_key "secret" = "2bb80d537b1da3e38bd30361aa855686bde0eacd7162fef6a25fe97bf527a25b"
    ∧ validate_api_key (AuthMiddleware.init ["secret"] true none) "secret" = true
    ∧ validate_api_key (AuthMiddleware.init ["secret"] true none)
        (hash_key "secret") = false := by
  refine ⟨by decide, by decide, by decide⟩

/-! ## C6: the in-progress gauge -/

/-- Claim C6: whatever the downstream handler does (return or raise), the
in-progress gauge after `MetricsMiddleware.dispatch` completes equals its
value before the request started; and `dec_requests_in_progress` never
drives the gauge below zero — in particular decrementing at zero leaves it
at zero. -/
theorem gauge_restored (c : MetricsCollector) (req : Request)
    (call_next : Request → Except String Response) (t0 t1 : ℚ)
    (hg : 0 ≤ c.http_requests_in_progress) :
    ((metrics_dispatch c req call_next t0 t1).2).http_requests_in_progress =
        c.http_requests_in_progress
    ∧ (∀ c2 : MetricsCollector,
        0 ≤ (c2.dec_requests_in_progress).http_requests_in_progress
        ∧ (c2.http_requests_in_progress = 0 →
            (c2.dec_requests_in_progress).http_requests_in_progress = 0)) := by
  constructor
  · unfold metrics_dispatch
    split
    · rfl
    · have hcancel : c.http_requests_in_progress + 1 - 1 = c.http_requests_in_progress := by
        ring
      cases call_next req <;>
        simp [MetricsCollector.inc_requests_in_progress,
          MetricsCollector.dec_requests_in_progress,
          MetricsCollector.record_http_request, hcancel, max_eq_right hg]
  · intro c2
    exact ⟨le_max_left 0 _, fun h0 => by
      simp [MetricsCollector.dec_requests_in_progress, h0]⟩

/-- A non-exempt request used for the metrics-middleware scenarios. -/
def reqPing : Request :=
  { method := "GET", path := "/ping", headers := [], client_host := some "1.2.3.4" }

/-- A downstream handler that returns a plain 200 response. -/
def okNext : Request → Except String Response := fun _ => .ok { status_code := 200, headers := [] }

/-- A downstream handler that raises. -/
def failNext : Request → Except String Response := fun _ => .error "boom"

/-- Witness for C6 at the empty collector with a succeeding handler. -/
theorem gauge_restored_witness :
    ((metrics_dispatch MetricsCollector.init reqPing okNext 0 1).2).http_requests_in_progress =
      MetricsCollector.init.http_requests_in_progress :=
  (gauge_restored MetricsCollector.init reqPing okNext 0 1 (by decide)).1

/-! ## C7: the auth-attempt counter is never incremented (claim refuted) -/

/-- Counterexample to C7: a concrete non-exempt evaluation by the
authentication middleware (here ending in a 401 rejection) leaves the
metrics collector's auth-attempt counter at 0; the claimed increment to 1
does not happen, because `AuthenticationMiddleware.dispatch` contains no
metrics call and `record_auth_attempt` has no caller. -/
theorem auth_attempt_counter_not_incremented :
    (auth_dispatch_metrics (AuthMiddleware.init ["secret"] true none)
        MetricsCollector.init reqPing).1 = .reject 401 body401 headers401
    ∧ ((auth_dispatch_metrics (AuthMiddleware.init ["secret"] true none)
        MetricsCollector.init reqPing).2).auth_attempts_total = 0
    ∧ ¬ ((auth_dispatch_metrics (AuthMiddleware.init ["secret"] true none)
        MetricsCollector.init reqPing).2).auth_attempts_total =
          MetricsCollector.init.auth_attempts_total + 1 := by
  refine ⟨by decide, rfl, by decide⟩

/-- Amended C7: evaluations by the authentication middleware leave the
metrics collector entirely unchanged (the wiring the spec intends does not
exist in the code); the collector's `record_auth_attempt` operation itself,
when invoked, increments the attempt counter by exactly one and the failure
counter by exactly one on failure. -/
theorem auth_dispatch_leaves_metrics (mw : AuthMiddleware) (c : MetricsCollector)
    (req : Request) :
    (auth_dispatch_metrics mw c req).2 = c
    ∧ (∀ (c2 : MetricsCollector) (success : Bool),
        (c2.record_auth_attempt success).auth_attempts_total = c2.auth_attempts_total + 1
        ∧ (c2.record_auth_attempt success).auth_failures_total =
            c2.auth_failures_total + (if success then 0 else 1)) := by
  refine ⟨rfl, fun c2 success => ⟨rfl, ?_⟩⟩
  cases success <;> simp [MetricsCollector.record_auth_attempt]

/-! ## C8: exception path of the metrics middleware (claim refuted) -/

/-- Counterexample to C8: when the downstream handler raises, the error is
propagated and the gauge restored, but no `(method, path, status)` counter
is touched — in particular no synthesized 5xx status is recorded: every
status count for the request's method and path is still zero. -/
theorem metrics_exception_no_status_recorded :
    (metrics_dispatch MetricsCollector.init reqPing failNext 0 1).1 = .error "boom"
    ∧ ¬ ∃ s5 : ℕ,
        ((metrics_dispatch MetricsCollector.init reqPing failNext 0 1).2).http_requests_total
          ("GET", "/ping", s5) ≠ 0 := by
  refine ⟨rfl, ?_⟩
  rintro ⟨s5, hs⟩
  exact hs rfl

/-- Amended C8: on a non-exempt request whose downstream handler raises,
`MetricsMiddleware.dispatch` propagates the error unswallowed and returns
the collector to exactly its prior state: the in-progress gauge is
decremented back and no duration or status is recorded. -/
theorem metrics_exception_bookkeeping (c : MetricsCollector) (req : Request)
    (call_next : Request → Except String Response) (t0 t1 : ℚ) (e : String)
    (hpath : req.path ≠ "/metrics") (hg : 0 ≤ c.http_requests_in_progress)
    (herr : call_next req = .error e) :
    metrics_dispatch c req call_next t0 t1 = (.error e, c) := by
  unfold metrics_dispatch
  rw [if_neg hpath, herr]
  have hdec : (c.inc_requests_in_progress).dec_requests_in_progress = c := by
    have hcancel : c.http_requests_in_progress + 1 - 1 = c.http_requests_in_progress := by
      ring
    cases c
    simp_all [MetricsCollector.inc_requests_in_progress,
      MetricsCollector.dec_requests_in_progress, max_eq_right]
  show ((Except.error e : Except String Response),
    (c.inc_requests_in_progress).dec_requests_in_progress) = (Except.error e, c)
  rw [hdec]

/-- Witness for amended C8 at the empty collector and a raising handler. -/
theorem metrics_exception_bookkeeping_witness :
    metrics_dispatch MetricsCollector.init reqPing failNext 0 1 =
      (.error "boom", MetricsCollector.init) :=
  metrics_exception_bookkeeping MetricsCollector.init reqPing failNext 0 1 "boom"
    (by decide) (by decide) rfl

end NetopsMcp
